import Mathlib

/-!
Shallow embedding of `src/client.py` (Capital.com REST API client).

The client holds a configuration, a base URL chosen at construction, and two
session tokens (`cst`, `security_token`) that start out as Python `None`.
Each HTTP method of the class performs exactly one HTTP call; we model a
method as a pure function from the client state and the HTTP response the
remote would deliver to a result (`Except ApiError Json`, mirroring return
value vs. raised exception) together with the post-call client state.
The request an operation sends is modelled separately as a function of the
pre-call state and the arguments.

JSON values are modelled by an inductive `Json`; Python floats that merely
pass through the client are represented by `ℚ` (the client performs no
floating-point arithmetic, `float(x)` on an already-numeric value is the
identity).  `requests`' case-insensitive header map is represented by an
association list whose keys are already canonicalized to the spellings the
source uses.
-/

namespace Capital

/-- JSON / Python value model. `obj` keys are unique (Python dict). -/
inductive Json where
  | null : Json
  | bool (b : Bool) : Json
  | num (q : ℚ) : Json
  | str (s : String) : Json
  | arr (elems : List Json) : Json
  | obj (fields : List (String × Json)) : Json
  deriving Repr

/-- Python truthiness of a JSON value (`bool(x)`). -/
def truthy : Json → Bool
  | .null => false
  | .bool b => b
  | .num q => q != 0
  | .str s => s != ""
  | .arr elems => !elems.isEmpty
  | .obj fields => !fields.isEmpty

/-- Association-list lookup (first match), used for dicts and header maps. -/
def alist.get? {α : Type} (l : List (String × α)) (k : String) : Option α :=
  (l.find? (fun p => p.1 == k)).map Prod.snd

/-- Python `d.get(k)` on a Python dict. -/
def Json.get? (j : Json) (k : String) : Option Json :=
  match j with
  | .obj fields => alist.get? fields k
  | _ => none

/-- Whether a value is a Python dict (has a `.get` method). -/
def Json.isObj : Json → Bool
  | .obj _ => true
  | _ => false

/-- Python truthiness of a value that may be `None` (e.g. `dict.get` result,
or the `cst` / `security_token` attributes). -/
def optTruthy : Option String → Bool
  | none => false
  | some s => s != ""

/-- Truthiness of an optional JSON value (`None` is falsy). -/
def joptTruthy : Option Json → Bool
  | none => false
  | some v => truthy v

/-- Python `a or b` where `a` may be `None` (`dict.get` result). -/
def pyOr (a : Option Json) (b : Json) : Json :=
  match a with
  | none => b
  | some v => if truthy v then v else b

/-- The `CapitalConfig` dataclass. -/
structure CapitalConfig where
  identifier : String
  api_key : String
  api_password : String
  use_demo : Bool := true
  deriving Repr, DecidableEq

/-- An HTTP response as the client observes it: status code, (canonicalized)
headers, the decoded JSON body when `resp.json()` succeeds (`none` when it
would raise), and the raw text. -/
structure HResponse where
  status_code : Nat
  headers : List (String × String) := []
  body? : Option Json := none
  text : String := ""
  deriving Repr

/-- Mutable state of a `CapitalAPI` instance (the `requests.Session` object
carries no client-visible state and is not modelled). -/
structure ClientState where
  config : CapitalConfig
  base_url : String
  cst : Option String
  security_token : Option String
  deriving Repr, DecidableEq

/-- Embeds `CapitalAPI.__init__`. -/
def init (config : CapitalConfig) : ClientState :=
  { config := config
    base_url :=
      if config.use_demo then "https://demo-api-capital.backend-capital.com"
      else "https://api-capital.backend-capital.com"
    cst := none
    security_token := none }

/-- Errors the client can raise.  `httpError` is `requests`'
`raise_for_status` exception; the others are the `RuntimeError`s of
`login` / `create_position` / `create_working_order`, carrying the data the
source interpolates into the message; `attributeError` is Python's
`AttributeError` from calling `.get` on a non-dict body. -/
inductive ApiError where
  | httpError (status : Nat)
  | missingTokens
  | createFailed (status : Nat) (body : Json)
  | noDealRef (body : Json)
  | attributeError
  deriving Repr

/-- Embeds `resp.raise_for_status()`: raises for 4xx and 5xx status codes. -/
def raise_for_status (r : HResponse) : Except ApiError Unit :=
  if 400 ≤ r.status_code ∧ r.status_code < 600 then .error (.httpError r.status_code)
  else .ok ()

/-- Embeds `CapitalAPI._json`: decode the body, falling back to `{"text": resp.text}`. -/
def respJson (r : HResponse) : Json :=
  match r.body? with
  | some j => j
  | none => .obj [("text", .str r.text)]

/-- Embeds `CapitalAPI._headers`. -/
def reqHeaders (s : ClientState) : List (String × String) :=
  let h := [("X-CAP-API-KEY", s.config.api_key)]
  if optTruthy s.cst && optTruthy s.security_token then
    h ++ [("CST", s.cst.getD ""), ("X-SECURITY-TOKEN", s.security_token.getD "")]
  else h

/-- HTTP methods used by the client. -/
inductive Method where
  | get | post | delete
  deriving Repr, DecidableEq

/-- An HTTP request as the client builds it. -/
structure Request where
  method : Method
  url : String
  headers : List (String × String)
  params : List (String × String) := []
  body? : Option Json := none
  deriving Repr

/-- Embeds `CapitalAPI.login`: POST credentials; on a non-raising status, store both
token headers, then fail if either is missing or empty.  The returned state
is the instance state after the call, also when the call raises (Python
mutates `self` before raising the missing-token error). -/
def login (s : ClientState) (r : HResponse) : Except ApiError Unit × ClientState :=
  match raise_for_status r with
  | .error e => (.error e, s)
  | .ok _ =>
    let s' := { s with
      cst := alist.get? r.headers "CST"
      security_token := alist.get? r.headers "X-SECURITY-TOKEN" }
    if optTruthy s'.cst && optTruthy s'.security_token then (.ok (), s')
    else (.error .missingTokens, s')

/-- The request `login` sends. -/
def login_request (s : ClientState) : Request :=
  { method := .post
    url := s.base_url ++ "/session"
    headers := reqHeaders s ++ [("Content-Type", "application/json")]
    body? := some (.obj
      [("identifier", .str s.config.identifier),
       ("password", .str s.config.api_password),
       ("encryptedPassword", .bool false)]) }

/-- Embeds `CapitalAPI.search_markets`: on a non-raising status, return
`data.get("markets") or data.get("content") or []`. -/
def search_markets (s : ClientState) (r : HResponse) :
    Except ApiError Json × ClientState :=
  match raise_for_status r with
  | .error e => (.error e, s)
  | .ok _ =>
    let data := respJson r
    if data.isObj then
      (.ok (pyOr (data.get? "markets") (pyOr (data.get? "content") (.arr []))), s)
    else (.error .attributeError, s)

/-- The request `search_markets` sends. -/
def search_markets_request (s : ClientState) (search_term : String) : Request :=
  { method := .get
    url := s.base_url ++ "/markets"
    headers := reqHeaders s
    params := [("searchTerm", search_term)] }

/-- The payload `create_position` builds: mandatory fields, then each
optional field only when provided / set. -/
def create_position_payload (epic direction : String) (size : ℚ)
    (stop_level profit_level : Option ℚ) (guaranteed_stop trailing_stop : Bool) :
    Json :=
  .obj ([("epic", .str epic), ("direction", .str direction), ("size", .num size)]
    ++ (match stop_level with | some v => [("stopLevel", .num v)] | none => [])
    ++ (match profit_level with | some v => [("profitLevel", .num v)] | none => [])
    ++ (if guaranteed_stop then [("guaranteedStop", .bool true)] else [])
    ++ (if trailing_stop then [("trailingStop", .bool true)] else []))

/-- Shared tail of `create_position` / `create_working_order`: parse the
body, fail with status and parsed body when the status is ≥ 300, otherwise
fail unless the body carries a truthy `dealReference`, which is returned. -/
def dealRefResult (s : ClientState) (r : HResponse) :
    Except ApiError Json × ClientState :=
  let data := respJson r
  if 300 ≤ r.status_code then (.error (.createFailed r.status_code data), s)
  else if data.isObj then
    match data.get? "dealReference" with
    | some v => if truthy v then (.ok v, s) else (.error (.noDealRef data), s)
    | none => (.error (.noDealRef data), s)
  else (.error .attributeError, s)

/-- Embeds `CapitalAPI.create_position` (result and post-state). -/
def create_position (s : ClientState) (_epic _direction : String) (_size : ℚ)
    (_stop_level _profit_level : Option ℚ) (_guaranteed_stop _trailing_stop : Bool)
    (r : HResponse) : Except ApiError Json × ClientState :=
  dealRefResult s r

/-- The request `create_position` sends. -/
def create_position_request (s : ClientState) (epic direction : String) (size : ℚ)
    (stop_level profit_level : Option ℚ) (guaranteed_stop trailing_stop : Bool) :
    Request :=
  { method := .post
    url := s.base_url ++ "/api/v1/positions"
    headers := reqHeaders s ++ [("Content-Type", "application/json")]
    body? := some (create_position_payload epic direction size
      stop_level profit_level guaranteed_stop trailing_stop) }

/-- Embeds `CapitalAPI.confirm`. -/
def confirm (s : ClientState) (r : HResponse) :
    Except ApiError Json × ClientState :=
  match raise_for_status r with
  | .error e => (.error e, s)
  | .ok _ => (.ok (respJson r), s)

/-- The request `confirm` sends. -/
def confirm_request (s : ClientState) (deal_reference : String) : Request :=
  { method := .get
    url := s.base_url ++ "/api/v1/confirms/" ++ deal_reference
    headers := reqHeaders s }

/-- Embeds `CapitalAPI.list_positions`. -/
def list_positions (s : ClientState) (r : HResponse) :
    Except ApiError Json × ClientState :=
  match raise_for_status r with
  | .error e => (.error e, s)
  | .ok _ => (.ok (respJson r), s)

/-- The request `list_positions` sends. -/
def list_positions_request (s : ClientState) : Request :=
  { method := .get
    url := s.base_url ++ "/api/v1/positions"
    headers := reqHeaders s }

/-- Embeds `CapitalAPI.close_position`: DELETE by deal id (the `otc` URL first
assigned in the source is immediately overwritten and never sent). -/
def close_position (s : ClientState) (r : HResponse) :
    Except ApiError Json × ClientState :=
  match raise_for_status r with
  | .error e => (.error e, s)
  | .ok _ => (.ok (respJson r), s)

/-- The request `close_position` sends. -/
def close_position_request (s : ClientState) (deal_id : String) : Request :=
  { method := .delete
    url := s.base_url ++ "/api/v1/positions/" ++ deal_id
    headers := reqHeaders s }

/-- The payload `create_working_order` builds. -/
def create_working_order_payload (epic direction order_type : String)
    (size level : ℚ) (time_in_force : String)
    (stop_level profit_level : Option ℚ) : Json :=
  .obj ([("epic", .str epic), ("direction", .str direction),
         ("orderType", .str order_type), ("size", .num size),
         ("level", .num level), ("timeInForce", .str time_in_force)]
    ++ (match stop_level with | some v => [("stopLevel", .num v)] | none => [])
    ++ (match profit_level with | some v => [("profitLevel", .num v)] | none => []))

/-- Embeds `CapitalAPI.create_working_order` (result and post-state). -/
def create_working_order (s : ClientState) (_epic _direction _order_type : String)
    (_size _level : ℚ) (_time_in_force : String)
    (_stop_level _profit_level : Option ℚ)
    (r : HResponse) : Except ApiError Json × ClientState :=
  dealRefResult s r

/-- The request `create_working_order` sends. -/
def create_working_order_request (s : ClientState) (epic direction order_type : String)
    (size level : ℚ) (time_in_force : String)
    (stop_level profit_level : Option ℚ) : Request :=
  { method := .post
    url := s.base_url ++ "/api/v1/workingorders"
    headers := reqHeaders s ++ [("Content-Type", "application/json")]
    body? := some (create_working_order_payload epic direction order_type
      size level time_in_force stop_level profit_level) }

/-- Embeds `CapitalAPI.delete_working_order`. -/
def delete_working_order (s : ClientState) (r : HResponse) :
    Except ApiError Json × ClientState :=
  match raise_for_status r with
  | .error e => (.error e, s)
  | .ok _ => (.ok (respJson r), s)

/-- The request `delete_working_order` sends. -/
def delete_working_order_request (s : ClientState) (deal_id : String) : Request :=
  { method := .delete
    url := s.base_url ++ "/api/v1/workingorders/" ++ deal_id
    headers := reqHeaders s }

/-! ### Traces: a call on the client together with the response it receives -/

/-- One method call on the client, paired with the HTTP response the remote
delivers to it. -/
inductive Op where
  | login (r : HResponse)
  | search_markets (search_term : String) (r : HResponse)
  | create_position (epic direction : String) (size : ℚ)
      (stop_level profit_level : Option ℚ) (guaranteed_stop trailing_stop : Bool)
      (r : HResponse)
  | confirm (deal_reference : String) (r : HResponse)
  | list_positions (r : HResponse)
  | close_position (deal_id : String) (r : HResponse)
  | create_working_order (epic direction order_type : String) (size level : ℚ)
      (time_in_force : String) (stop_level profit_level : Option ℚ)
      (r : HResponse)
  | delete_working_order (deal_id : String) (r : HResponse)

/-- The single HTTP request an operation sends, built from the pre-call
state (each method of the source performs exactly one `session` call). -/
def requestOf (s : ClientState) : Op → Request
  | .login _ => login_request s
  | .search_markets term _ => search_markets_request s term
  | .create_position e d sz sl pl gs ts _ =>
      create_position_request s e d sz sl pl gs ts
  | .confirm dr _ => confirm_request s dr
  | .list_positions _ => list_positions_request s
  | .close_position id _ => close_position_request s id
  | .create_working_order e d ot sz lv tif sl pl _ =>
      create_working_order_request s e d ot sz lv tif sl pl
  | .delete_working_order id _ => delete_working_order_request s id

/-- The client state after an operation (whether it returns or raises). -/
def stepState (s : ClientState) : Op → ClientState
  | .login r => (login s r).2
  | .search_markets _ r => (search_markets s r).2
  | .create_position e d sz sl pl gs ts r =>
      (create_position s e d sz sl pl gs ts r).2
  | .confirm _ r => (confirm s r).2
  | .list_positions r => (list_positions s r).2
  | .close_position _ r => (close_position s r).2
  | .create_working_order e d ot sz lv tif sl pl r =>
      (create_working_order s e d ot sz lv tif sl pl r).2
  | .delete_working_order _ r => (delete_working_order s r).2

/-- Run a sequence of calls, collecting the requests sent. -/
def run (s : ClientState) : List Op → List Request × ClientState
  | [] => ([], s)
  | op :: ops =>
    let rest := run (stepState s op) ops
    (requestOf s op :: rest.1, rest.2)

/-- Whether an operation is a `login` call. -/
def Op.isLogin : Op → Bool
  | .login _ => true
  | _ => false

/-- Whether an operation is a `login` call that succeeds (its success
depends only on the response: a non-raising status and both token headers
present with non-empty values). -/
def Op.isSuccessfulLogin : Op → Bool
  | .login r =>
      !(decide (400 ≤ r.status_code ∧ r.status_code < 600))
      && optTruthy (alist.get? r.headers "CST")
      && optTruthy (alist.get? r.headers "X-SECURITY-TOKEN")
  | _ => false

/-- Python truthiness of the stored token pair: the guard of `_headers` and
the post-condition of a successful `login` ("both session tokens stored"). -/
def bothTruthy (s : ClientState) : Bool :=
  optTruthy s.cst && optTruthy s.security_token

/-! ### Concrete fixtures used by witnesses and counterexamples -/

/-- A sample configuration. -/
def cfg0 : CapitalConfig := { identifier := "id", api_key := "key", api_password := "pw" }

/-- A freshly constructed client. -/
def s0 : ClientState := init cfg0

/-- A client state holding tokens from an earlier successful login. -/
def sTok : ClientState :=
  { config := cfg0
    base_url := "https://demo-api-capital.backend-capital.com"
    cst := some "oldCst"
    security_token := some "oldTok" }

/-- A 200 login response whose CST header is present but empty. -/
def rEmptyCst : HResponse :=
  { status_code := 200, headers := [("CST", ""), ("X-SECURITY-TOKEN", "t")] }

/-- A 200 login response carrying both token headers with values. -/
def rGood : HResponse :=
  { status_code := 200, headers := [("CST", "c"), ("X-SECURITY-TOKEN", "t")] }

/-- A 200 login response carrying neither token header. -/
def rNoTok : HResponse := { status_code := 200 }

/-- A 200 response whose body carries a deal reference. -/
def rDeal : HResponse :=
  { status_code := 200, body? := some (.obj [("dealReference", .str "X")]) }

/-- A non-2xx, non-error status response whose body carries a deal reference. -/
def rLow : HResponse :=
  { status_code := 199, body? := some (.obj [("dealReference", .str "X")]) }

/-- A 200 response whose body holds a non-empty `markets` list. -/
def rMk : HResponse :=
  { status_code := 200, body? := some (.obj [("markets", .arr [.str "a"])]) }

/-- A 200 response whose body holds an empty `markets` list and a non-empty
`content` list. -/
def rCex : HResponse :=
  { status_code := 200
    body? := some (.obj [("markets", .arr []), ("content", .arr [.str "m"])]) }

/-- A plain 200 response with no headers and no body. -/
def rPlain : HResponse := { status_code := 200 }

/-- A 200 response with an undecodable body. -/
def rRaw : HResponse := { status_code := 200, body? := none, text := "oops" }

/-! ### Helper lemmas about headers -/

theorem alist_get?_append_single {α : Type} (l : List (String × α)) (k' : String)
    (v : α) (k : String) (hk : (k' == k) = false) :
    alist.get? (l ++ [(k', v)]) k = alist.get? l k := by
  unfold alist.get?
  rw [List.find?_append]
  cases h : l.find? (fun p => p.1 == k) <;> simp [h, List.find?, hk]

theorem reqHeaders_api (s : ClientState) :
    alist.get? (reqHeaders s) "X-CAP-API-KEY" = some s.config.api_key := by
  unfold reqHeaders
  split <;> rfl

theorem reqHeaders_session_false (s : ClientState) (h : bothTruthy s = false) :
    alist.get? (reqHeaders s) "CST" = none
    ∧ alist.get? (reqHeaders s) "X-SECURITY-TOKEN" = none := by
  have h' : (optTruthy s.cst && optTruthy s.security_token) = false := h
  unfold reqHeaders
  rw [if_neg (by simp [h'])]
  exact ⟨rfl, rfl⟩

theorem reqHeaders_session_true (s : ClientState) (h : bothTruthy s = true) :
    alist.get? (reqHeaders s) "CST" = some (s.cst.getD "")
    ∧ alist.get? (reqHeaders s) "X-SECURITY-TOKEN" = some (s.security_token.getD "") := by
  have h' : (optTruthy s.cst && optTruthy s.security_token) = true := h
  unfold reqHeaders
  rw [if_pos h']
  exact ⟨rfl, rfl⟩

/-! ### Helper lemmas about results and state -/

theorem Json.get?_some_isObj {j : Json} {k : String} {v : Json}
    (h : j.get? k = some v) : j.isObj = true := by
  cases j <;> simp [Json.get?, Json.isObj] at h ⊢

theorem raise_for_status_ok {r : HResponse} (h : ¬(400 ≤ r.status_code ∧ r.status_code < 600)) :
    raise_for_status r = .ok () := by
  unfold raise_for_status
  rw [if_neg h]

theorem dealRefResult_failed (s : ClientState) (r : HResponse)
    (h : 300 ≤ r.status_code) :
    (dealRefResult s r).1 = .error (.createFailed r.status_code (respJson r)) := by
  unfold dealRefResult
  rw [if_pos h]

theorem dealRefResult_ok (s : ClientState) (r : HResponse) (x : String)
    (hlt : ¬ 300 ≤ r.status_code)
    (hget : (respJson r).get? "dealReference" = some (.str x)) (hx : x ≠ "") :
    (dealRefResult s r).1 = .ok (.str x) := by
  unfold dealRefResult
  rw [if_neg hlt, if_pos (Json.get?_some_isObj hget), hget]
  simp [truthy, hx]

theorem dealRefResult_noRef (s : ClientState) (r : HResponse)
    (hlt : ¬ 300 ≤ r.status_code)
    (hobj : (respJson r).isObj = true)
    (hget : (respJson r).get? "dealReference" = none) :
    (dealRefResult s r).1 = .error (.noDealRef (respJson r)) := by
  unfold dealRefResult
  rw [if_neg hlt, if_pos hobj, hget]

theorem dealRefResult_failed_iff (s : ClientState) (r : HResponse) :
    (dealRefResult s r).1 = .error (.createFailed r.status_code (respJson r))
      ↔ 300 ≤ r.status_code := by
  constructor
  · intro h
    by_contra hlt
    unfold dealRefResult at h
    rw [if_neg hlt] at h
    split at h
    · split at h
      · split at h <;> simp_all
      · simp_all
    · simp_all
  · exact dealRefResult_failed s r

theorem dealRefResult_snd (s : ClientState) (r : HResponse) :
    (dealRefResult s r).2 = s := by
  unfold dealRefResult
  split
  · rfl
  · cases hobj : (respJson r).isObj
    · simp [hobj]
    · cases hget : (respJson r).get? "dealReference"
      · simp [hobj, hget]
      · simp only [hobj, hget]
        repeat' split
        all_goals rfl

theorem passthrough_snd (s : ClientState) (r : HResponse) :
    (search_markets s r).2 = s ∧ (confirm s r).2 = s ∧ (list_positions s r).2 = s
    ∧ (close_position s r).2 = s ∧ (delete_working_order s r).2 = s := by
  unfold search_markets confirm list_positions close_position delete_working_order
  rcases hr : raise_for_status r with e | u <;> simp [hr]
  split
  all_goals rfl

theorem login_snd_frame (s : ClientState) (r : HResponse) :
    ((login s r).2).config = s.config ∧ ((login s r).2).base_url = s.base_url := by
  unfold login
  rcases hr : raise_for_status r with e | u <;> simp [hr]
  split
  all_goals exact ⟨rfl, rfl⟩

theorem ct_append_keeps (s : ClientState) (k : String)
    (hk : ("Content-Type" == k) = false) :
    alist.get? (reqHeaders s ++ [("Content-Type", "application/json")]) k
      = alist.get? (reqHeaders s) k :=
  alist_get?_append_single (reqHeaders s) "Content-Type" "application/json" k hk

theorem requestOf_headers (s : ClientState) (op : Op) :
    alist.get? (requestOf s op).headers "X-CAP-API-KEY" = some s.config.api_key
    ∧ (bothTruthy s = false →
        alist.get? (requestOf s op).headers "CST" = none
        ∧ alist.get? (requestOf s op).headers "X-SECURITY-TOKEN" = none)
    ∧ (bothTruthy s = true →
        alist.get? (requestOf s op).headers "CST" = some (s.cst.getD "")
        ∧ alist.get? (requestOf s op).headers "X-SECURITY-TOKEN"
            = some (s.security_token.getD "")) := by
  have hcst : ("Content-Type" == "CST") = false := by decide
  have hxst : ("Content-Type" == "X-SECURITY-TOKEN") = false := by decide
  have hapi : ("Content-Type" == "X-CAP-API-KEY") = false := by decide
  cases op <;>
    simp only [requestOf, login_request, search_markets_request, create_position_request,
      confirm_request, list_positions_request, close_position_request,
      create_working_order_request, delete_working_order_request,
      ct_append_keeps s _ hcst, ct_append_keeps s _ hxst, ct_append_keeps s _ hapi] <;>
    exact ⟨reqHeaders_api s,
      fun h => reqHeaders_session_false s h,
      fun h => reqHeaders_session_true s h⟩

theorem stepState_not_login (s : ClientState) (op : Op) (h : op.isLogin = false) :
    stepState s op = s := by
  cases op with
  | login r => simp [Op.isLogin] at h
  | search_markets term r => exact (passthrough_snd s r).1
  | create_position e d sz sl pl gs ts r => exact dealRefResult_snd s r
  | confirm dr r => exact (passthrough_snd s r).2.1
  | list_positions r => exact (passthrough_snd s r).2.2.1
  | close_position id r => exact (passthrough_snd s r).2.2.2.1
  | create_working_order e d ot sz lv tif sl pl r => exact dealRefResult_snd s r
  | delete_working_order id r => exact (passthrough_snd s r).2.2.2.2

theorem bothTruthy_step (s : ClientState) (op : Op)
    (hs : bothTruthy s = false) (hop : op.isSuccessfulLogin = false) :
    bothTruthy (stepState s op) = false := by
  cases op with
  | login r =>
      show bothTruthy (login s r).2 = false
      unfold login
      rcases hr : raise_for_status r with e | u
      · exact hs
      · have hraise : (decide (400 ≤ r.status_code ∧ r.status_code < 600)) = false := by
          by_contra hd
          have : 400 ≤ r.status_code ∧ r.status_code < 600 := by
            simpa using hd
          unfold raise_for_status at hr
          rw [if_pos this] at hr
          cases hr
        simp only [Op.isSuccessfulLogin, hraise, Bool.not_false, Bool.true_and] at hop
        simp only []
        split <;> simp_all [bothTruthy]
  | search_markets term r =>
      rw [stepState_not_login s (.search_markets term r) rfl]; exact hs
  | create_position e d sz sl pl gs ts r =>
      rw [stepState_not_login s (.create_position e d sz sl pl gs ts r) rfl]; exact hs
  | confirm dr r =>
      rw [stepState_not_login s (.confirm dr r) rfl]; exact hs
  | list_positions r =>
      rw [stepState_not_login s (.list_positions r) rfl]; exact hs
  | close_position id r =>
      rw [stepState_not_login s (.close_position id r) rfl]; exact hs
  | create_working_order e d ot sz lv tif sl pl r =>
      rw [stepState_not_login s (.create_working_order e d ot sz lv tif sl pl r) rfl]; exact hs
  | delete_working_order id r =>
      rw [stepState_not_login s (.delete_working_order id r) rfl]; exact hs

theorem run_omits_session_headers (s : ClientState) (ops : List Op)
    (hs : bothTruthy s = false)
    (hops : ops.all (fun op => ! op.isSuccessfulLogin) = true) :
    ∀ req ∈ (run s ops).1,
      alist.get? req.headers "CST" = none
      ∧ alist.get? req.headers "X-SECURITY-TOKEN" = none := by
  induction ops generalizing s with
  | nil => intro req h; simp [run] at h
  | cons op ops ih =>
      rw [List.all_cons] at hops
      rcases Bool.and_eq_true_iff.mp hops with ⟨hop, hrest⟩
      have hop' : op.isSuccessfulLogin = false := by
        cases h : op.isSuccessfulLogin <;> simp_all
      intro req hreq
      rcases List.mem_cons.mp hreq with heq | hmem
      · subst heq
        exact (requestOf_headers s op).2.1 hs
      · exact ih (stepState s op) (bothTruthy_step s op hs hop') hrest req hmem

theorem login_after_ok (s : ClientState) (r : HResponse)
    (hok : raise_for_status r = .ok ()) :
    (login s r).2.cst = alist.get? r.headers "CST"
    ∧ (login s r).2.security_token = alist.get? r.headers "X-SECURITY-TOKEN"
    ∧ ((optTruthy (alist.get? r.headers "CST")
        && optTruthy (alist.get? r.headers "X-SECURITY-TOKEN")) = true →
        (login s r).1 = .ok ())
    ∧ ((optTruthy (alist.get? r.headers "CST")
        && optTruthy (alist.get? r.headers "X-SECURITY-TOKEN")) = false →
        (login s r).1 = .error .missingTokens) := by
  simp only [login, hok]
  refine ⟨?_, ?_, fun h => ?_, fun h => ?_⟩
  · split <;> rfl
  · split <;> rfl
  · rw [if_pos h]
  · rw [if_neg (by simp [h])]

/-! ### Claims -/

/-- **C1** (amended): for a 200 login response carrying both token headers
with non-empty values, `login` stores both values and returns normally; for
a 200 response where either token header is missing or carries an empty
value, `login` fails with the missing-token authentication error. -/
theorem c1_login_stores_tokens (s : ClientState) (r : HResponse)
    (h200 : r.status_code = 200) :
    ((optTruthy (alist.get? r.headers "CST")
        && optTruthy (alist.get? r.headers "X-SECURITY-TOKEN")) = true →
      (login s r).1 = .ok ()
      ∧ (login s r).2.cst = alist.get? r.headers "CST"
      ∧ (login s r).2.security_token = alist.get? r.headers "X-SECURITY-TOKEN")
    ∧ ((optTruthy (alist.get? r.headers "CST")
        && optTruthy (alist.get? r.headers "X-SECURITY-TOKEN")) = false →
      (login s r).1 = .error .missingTokens) := by
  have hok : raise_for_status r = .ok () := raise_for_status_ok (by omega)
  obtain ⟨h1, h2, h3, h4⟩ := login_after_ok s r hok
  exact ⟨fun h => ⟨h3 h, h1, h2⟩, h4⟩

/-- **C1** witness: a 200 response with CST "c" and X-SECURITY-TOKEN "t"
logs in successfully and stores both values. -/
theorem c1_login_stores_tokens_witness :
    (login s0 rGood).1 = .ok ()
    ∧ (login s0 rGood).2.cst = alist.get? rGood.headers "CST"
    ∧ (login s0 rGood).2.security_token = alist.get? rGood.headers "X-SECURITY-TOKEN" :=
  (c1_login_stores_tokens s0 rGood rfl).1 rfl

/-- **C1** counterexample: a 200 login response that carries both token
headers, the CST one with an empty value.  The claim as frozen says such a
login returns normally; the code's truthiness test makes it fail. -/
theorem c1_counterexample :
    rEmptyCst.status_code = 200
    ∧ (alist.get? rEmptyCst.headers "CST").isSome = true
    ∧ (alist.get? rEmptyCst.headers "X-SECURITY-TOKEN").isSome = true
    ∧ (login s0 rEmptyCst).1 ≠ .ok () := by
  refine ⟨rfl, rfl, rfl, fun h => ?_⟩
  have h' : (Except.error ApiError.missingTokens : Except ApiError Unit) = .ok () := h
  cases h'

/-- **C10**: after any login call whose response status is 2xx, the stored
cst / security_token equal exactly that response's CST / X-SECURITY-TOKEN
header values (absent when a header is missing) — also when the login then
fails; in particular a failed login over a 2xx response discards tokens
stored by a previous successful login. -/
theorem c10_login_overwrites (s : ClientState) (r : HResponse)
    (hlo : 200 ≤ r.status_code) (hhi : r.status_code < 300) :
    (login s r).2.cst = alist.get? r.headers "CST"
    ∧ (login s r).2.security_token = alist.get? r.headers "X-SECURITY-TOKEN" := by
  have hok : raise_for_status r = .ok () := raise_for_status_ok (by omega)
  obtain ⟨h1, h2, _, _⟩ := login_after_ok s r hok
  exact ⟨h1, h2⟩

/-- **C10** witness: a client holding tokens from an earlier successful
login loses them on a 2xx login response carrying no token headers. -/
theorem c10_login_overwrites_witness :
    (login sTok rNoTok).2.cst = none
    ∧ (login sTok rNoTok).2.security_token = none :=
  c10_login_overwrites sTok rNoTok (by decide) (by decide)

/-- **C2**: for create_position and create_working_order: a 200 response
whose body carries a non-empty dealReference string returns that string; a
200 dict body lacking the field fails; a 400 status fails with status code
400 and the parsed body captured in the error. -/
theorem c2_deal_reference (s : ClientState) (r : HResponse)
    (e d ot tif : String) (sz lv : ℚ) (sl pl : Option ℚ) (gs ts : Bool) :
    (∀ x : String, r.status_code = 200 →
        (respJson r).get? "dealReference" = some (.str x) → x ≠ "" →
        (create_position s e d sz sl pl gs ts r).1 = .ok (.str x)
        ∧ (create_working_order s e d ot sz lv tif sl pl r).1 = .ok (.str x))
    ∧ (r.status_code = 200 → (respJson r).isObj = true →
        (respJson r).get? "dealReference" = none →
        (create_position s e d sz sl pl gs ts r).1 = .error (.noDealRef (respJson r))
        ∧ (create_working_order s e d ot sz lv tif sl pl r).1
            = .error (.noDealRef (respJson r)))
    ∧ (r.status_code = 400 →
        (create_position s e d sz sl pl gs ts r).1
          = .error (.createFailed 400 (respJson r))
        ∧ (create_working_order s e d ot sz lv tif sl pl r).1
          = .error (.createFailed 400 (respJson r))) := by
  refine ⟨fun x h200 hget hx => ?_, fun h200 hobj hget => ?_, fun h400 => ?_⟩
  · have h := dealRefResult_ok s r x (by omega) hget hx
    exact ⟨h, h⟩
  · have h := dealRefResult_noRef s r (by omega) hobj hget
    exact ⟨h, h⟩
  · have h := dealRefResult_failed s r (by omega)
    rw [h400] at h
    exact ⟨h, h⟩

/-- **C2** witness: a 200 body carrying dealReference "X" makes both
creation calls return "X". -/
theorem c2_deal_reference_witness :
    (create_position s0 "EP" "BUY" 1 none none false false rDeal).1 = .ok (.str "X")
    ∧ (create_working_order s0 "EP" "BUY" "LIMIT" 1 2 "GTC" none none rDeal).1
        = .ok (.str "X") :=
  (c2_deal_reference s0 rDeal "EP" "BUY" "LIMIT" "GTC" 1 2 none none false false).1
    "X" rfl rfl (by decide)

/-- **C3** (amended): for a successful search_markets call over a dict
body: if markets holds a non-empty list, that list is returned; if markets
is absent or holds an empty list and content holds a list, content's list
is returned; if neither key is present, the empty list is returned. -/
theorem c3_search_markets (s : ClientState) (r : HResponse)
    (hok : raise_for_status r = .ok ()) (hobj : (respJson r).isObj = true) :
    (∀ l, (respJson r).get? "markets" = some (.arr l) → l ≠ [] →
        (search_markets s r).1 = .ok (.arr l))
    ∧ (∀ m, ((respJson r).get? "markets" = none
          ∨ (respJson r).get? "markets" = some (.arr [])) →
        (respJson r).get? "content" = some (.arr m) →
        (search_markets s r).1 = .ok (.arr m))
    ∧ ((respJson r).get? "markets" = none → (respJson r).get? "content" = none →
        (search_markets s r).1 = .ok (.arr [])) := by
  have hsm : (search_markets s r).1
      = .ok (pyOr ((respJson r).get? "markets")
          (pyOr ((respJson r).get? "content") (.arr []))) := by
    simp only [search_markets, hok]
    rw [if_pos hobj]
  refine ⟨fun l hget hl => ?_, fun m hm hc => ?_, fun hm hc => ?_⟩
  · cases l with
    | nil => exact absurd rfl hl
    | cons a t => rw [hsm, hget]; rfl
  · rcases hm with hm | hm <;> rw [hsm, hm, hc] <;> cases m <;> rfl
  · rw [hsm, hm, hc]; rfl

/-- **C3** witness: a body holding a non-empty markets list makes
search_markets return that list. -/
theorem c3_search_markets_witness :
    (search_markets s0 rMk).1 = .ok (.arr [.str "a"]) :=
  (c3_search_markets s0 rMk rfl rfl).1 [.str "a"] rfl (List.cons_ne_nil _ _)

/-- **C3** counterexample: a body whose markets key holds the empty list
and whose content key holds a non-empty list.  The claim as frozen says the
markets list is returned; the code's `or` chain skips the falsy empty list
and returns content's list instead. -/
theorem c3_counterexample :
    (respJson rCex).get? "markets" = some (.arr [])
    ∧ (search_markets s0 rCex).1 = .ok (.arr [.str "m"])
    ∧ Json.arr [.str "m"] ≠ Json.arr [] := by
  refine ⟨rfl, rfl, fun h => ?_⟩
  injection h with h'
  cases h'

/-- **C4**: calling create_position with no optional arguments produces a
request body containing exactly the fields epic, direction and size. -/
theorem c4_minimal_payload (s : ClientState) (epic direction : String) (size : ℚ) :
    (create_position_request s epic direction size none none false false).body?
      = some (.obj [("epic", .str epic), ("direction", .str direction),
                    ("size", .num size)]) := rfl

/-- **C5** (amended): create_position / create_working_order surface the
failure carrying the HTTP status code and the parsed body exactly when the
status is ≥ 300 (not: outside the 2xx range); any response with status
below 300 whose body carries a deal reference succeeds. -/
theorem c5_status_failures (s : ClientState) (r : HResponse)
    (e d ot tif : String) (sz lv : ℚ) (sl pl : Option ℚ) (gs ts : Bool) :
    ((create_position s e d sz sl pl gs ts r).1
        = .error (.createFailed r.status_code (respJson r)) ↔ 300 ≤ r.status_code)
    ∧ ((create_working_order s e d ot sz lv tif sl pl r).1
        = .error (.createFailed r.status_code (respJson r)) ↔ 300 ≤ r.status_code)
    ∧ (r.status_code < 300 → ∀ x : String,
        (respJson r).get? "dealReference" = some (.str x) → x ≠ "" →
        (create_position s e d sz sl pl gs ts r).1 = .ok (.str x)
        ∧ (create_working_order s e d ot sz lv tif sl pl r).1 = .ok (.str x)) := by
  refine ⟨dealRefResult_failed_iff s r, dealRefResult_failed_iff s r,
    fun hlt x hget hx => ?_⟩
  have h := dealRefResult_ok s r x (by omega) hget hx
  exact ⟨h, h⟩

/-- **C5** witness: a 200 response with a deal reference succeeds for both
creation calls. -/
theorem c5_status_failures_witness :
    (create_position sTok "EP" "SELL" 2 none none false false rDeal).1 = .ok (.str "X")
    ∧ (create_working_order sTok "EP" "SELL" "STOP" 2 3 "GTC" none none rDeal).1
        = .ok (.str "X") :=
  (c5_status_failures sTok rDeal "EP" "SELL" "STOP" "GTC" 2 3 none none false false).2.2
    (by decide) "X" rfl (by decide)

/-- **C5** counterexample: a status-199 response (outside the 2xx range)
carrying a deal reference makes create_position succeed instead of
surfacing a failure — the code's threshold is 300, not the 2xx range. -/
theorem c5_counterexample :
    rLow.status_code = 199
    ∧ ¬(200 ≤ rLow.status_code ∧ rLow.status_code < 300)
    ∧ (create_position s0 "EP" "BUY" 1 none none false false rLow).1 = .ok (.str "X") :=
  ⟨rfl, by decide, rfl⟩

/-- **C6**: a response body that is not decodable as JSON never surfaces a
decoding exception: the parsed data is the fallback object holding the raw
text under a single "text" field, and an operation (here: confirm) returns
that fallback. -/
theorem c6_json_fallback (s : ClientState) (r : HResponse) (h : r.body? = none) :
    respJson r = .obj [("text", .str r.text)]
    ∧ (raise_for_status r = .ok () →
        (confirm s r).1 = .ok (.obj [("text", .str r.text)])) := by
  have hj : respJson r = .obj [("text", .str r.text)] := by
    unfold respJson
    rw [h]
  exact ⟨hj, fun hok => by simp [confirm, hok, hj]⟩

/-- **C6** witness: a 200 response with the undecodable body "oops". -/
theorem c6_json_fallback_witness :
    respJson rRaw = .obj [("text", .str "oops")]
    ∧ (confirm s0 rRaw).1 = .ok (.obj [("text", .str "oops")]) :=
  ⟨(c6_json_fallback s0 rRaw rfl).1, (c6_json_fallback s0 rRaw rfl).2 rfl⟩

/-- **C7**: every request carries the X-CAP-API-KEY header with the
configured key; the two session headers are attached exactly when both
tokens are stored (as a successful login leaves them) and carry the stored
values; and along any trace in which no login has succeeded, every request
omits both session headers. -/
theorem c7_headers (cfg : CapitalConfig) (ops : List Op) (s : ClientState) (op : Op) :
    alist.get? (requestOf s op).headers "X-CAP-API-KEY" = some s.config.api_key
    ∧ (bothTruthy s = false →
        alist.get? (requestOf s op).headers "CST" = none
        ∧ alist.get? (requestOf s op).headers "X-SECURITY-TOKEN" = none)
    ∧ (bothTruthy s = true →
        alist.get? (requestOf s op).headers "CST" = some (s.cst.getD "")
        ∧ alist.get? (requestOf s op).headers "X-SECURITY-TOKEN"
            = some (s.security_token.getD ""))
    ∧ (ops.all (fun o => ! o.isSuccessfulLogin) = true →
        ∀ req ∈ (run (init cfg) ops).1,
          alist.get? req.headers "CST" = none
          ∧ alist.get? req.headers "X-SECURITY-TOKEN" = none) := by
  obtain ⟨h1, h2, h3⟩ := requestOf_headers s op
  exact ⟨h1, h2, h3, fun hops => run_omits_session_headers (init cfg) ops rfl hops⟩

/-- **C7** witness: the single request of a trace consisting of one
pre-login list_positions call omits both session headers. -/
theorem c7_headers_witness :
    alist.get? (requestOf (init cfg0) (Op.list_positions rPlain)).headers "CST" = none
    ∧ alist.get? (requestOf (init cfg0) (Op.list_positions rPlain)).headers
        "X-SECURITY-TOKEN" = none :=
  (c7_headers cfg0 [Op.list_positions rPlain] (init cfg0) (Op.list_positions rPlain)).2.2.2
    rfl (requestOf (init cfg0) (Op.list_positions rPlain)) (List.Mem.head _)

/-- **C8**: only login writes the session tokens — every other operation
returns the client state unchanged, whether it succeeds or fails, and no
operation (login included) changes the configuration or the base URL. -/
theorem c8_frame (s : ClientState) (op : Op) :
    (stepState s op).config = s.config
    ∧ (stepState s op).base_url = s.base_url
    ∧ (op.isLogin = false → stepState s op = s) := by
  cases hop : op.isLogin
  · rw [stepState_not_login s op hop]
    exact ⟨rfl, rfl, fun _ => rfl⟩
  · cases op with
    | login r =>
        exact ⟨(login_snd_frame s r).1, (login_snd_frame s r).2,
          fun hc => Bool.noConfusion hc⟩
    | search_markets term r => exact Bool.noConfusion hop
    | create_position e d sz sl pl gs ts r => exact Bool.noConfusion hop
    | confirm dr r => exact Bool.noConfusion hop
    | list_positions r => exact Bool.noConfusion hop
    | close_position id r => exact Bool.noConfusion hop
    | create_working_order e d ot sz lv tif sl pl r => exact Bool.noConfusion hop
    | delete_working_order id r => exact Bool.noConfusion hop

/-- **C8** witness: a list_positions call leaves a fresh client unchanged. -/
theorem c8_frame_witness :
    stepState s0 (Op.list_positions rPlain) = s0 :=
  (c8_frame s0 (Op.list_positions rPlain)).2.2 rfl

/-- **C9**: close_position and delete_working_order each send exactly one
DELETE request, to the positions / workingorders resource path ending in
the given deal id. -/
theorem c9_delete_requests (s : ClientState) (deal_id : String) (r : HResponse) :
    ((run s [Op.close_position deal_id r]).1 = [close_position_request s deal_id]
      ∧ (close_position_request s deal_id).method = .delete
      ∧ (close_position_request s deal_id).url
          = s.base_url ++ "/api/v1/positions/" ++ deal_id)
    ∧ ((run s [Op.delete_working_order deal_id r]).1
          = [delete_working_order_request s deal_id]
      ∧ (delete_working_order_request s deal_id).method = .delete
      ∧ (delete_working_order_request s deal_id).url
          = s.base_url ++ "/api/v1/workingorders/" ++ deal_id) :=
  ⟨⟨rfl, rfl, rfl⟩, ⟨rfl, rfl, rfl⟩⟩

end Capital
